import Mathlib

/-!
Verification of the SWE-bench patch-evaluation core of the
plugin-autocoder repository, shallowly embedded in Lean 4.

The embedded code comes from two source files:
the batch evaluation engine (class RealEvaluationEngine in
src/swe-bench/real-evaluation-engine.ts) and the repository manager
(class RepositoryManager, an unnamed source file of the repository).

Program strings are modelled as lists of characters (the payloads at issue
are ASCII).  External effects -- child processes, the filesystem, wall-clock
timestamps -- are modelled by explicit environment records supplying the
outcome of each external interaction, and by event traces returned
alongside each result.  Wall-clock derived values (timestamps, the
Date.now suffix of temporary file names) are omitted or abstracted, as
noted at each definition.
-/

namespace Autocoder

/-- Strings of the embedded program, as lists of characters. -/
abbrev Str := List Char

/-- ASCII lower-casing of one character.  Models the behaviour of the
JavaScript toLowerCase on the ASCII alphabets involved in every keyword
comparison of the embedded code. -/
def lowerChar (c : Char) : Char :=
  if 65 ≤ c.toNat ∧ c.toNat ≤ 90 then Char.ofNat (c.toNat + 32) else c

/-- Lower-casing of a whole string. -/
def lowerStr (s : Str) : Str := s.map lowerChar

/-- Substring test, modelling the JavaScript expression
haystack.includes(needle), which searches for a literal substring. -/
def includesSub (h n : Str) : Bool :=
  match h with
  | [] => n.isPrefixOf ([] : Str)
  | c :: t => n.isPrefixOf (c :: t) || includesSub t n

/-- Whitespace test for the regex class backslash-s; the inputs at issue
use only the four ASCII whitespace characters. -/
def isWsChar (c : Char) : Bool :=
  c = ' ' || c = '\t' || c = '\n' || c = '\r'

/-- Digit test for the regex class backslash-d. -/
def isDigitChar (c : Char) : Bool :=
  48 ≤ c.toNat && c.toNat ≤ 57

/-- Blank test: true when every character is whitespace.  Models the
JavaScript falsiness of patchContent.trim(). -/
def isBlank (s : Str) : Bool := s.all isWsChar

/-- Case-insensitive literal match at the start of the input; the literal
is given lower-cased.  Returns the rest of the input on success. -/
def stripLitCI : Str → Str → Option Str
  | [], s => some s
  | _ :: _, [] => none
  | l :: lt, c :: ct => if lowerChar c = l then stripLitCI lt ct else none

/-- Greedy consumption of leading whitespace (regex backslash-s star).
A star quantifier followed by a non-whitespace literal is forced to its
maximal run, so no backtracking is needed. -/
def dropWs : Str → Str
  | [] => []
  | c :: t => if isWsChar c then dropWs t else c :: t

/-- One or more whitespace characters (regex backslash-s plus), greedy. -/
def stripWsPlus : Str → Option Str
  | [] => none
  | c :: t => if isWsChar c then some (dropWs t) else none

/-- Maximal run of leading digits together with the rest of the input. -/
def takeDigits : Str → Str × Str
  | [] => ([], [])
  | c :: t =>
    if isDigitChar c then
      let (d, r) := takeDigits t
      (c :: d, r)
    else ([], c :: t)

/-- Numeric value of a digit string, as computed by parseInt on a string
of decimal digits. -/
def digitsToNat (d : Str) : Nat :=
  d.foldl (fun a c => a * 10 + (c.toNat - 48)) 0

/-- Capture of a regex group backslash-d plus: the maximal nonempty digit
run, already converted by parseInt, and the rest of the input.  A plus
quantifier on digits followed by a token that cannot consume a digit is
forced to the maximal run, so no backtracking is needed. -/
def stripDigits (s : Str) : Option (Nat × Str) :=
  match takeDigits s with
  | ([], _) => none
  | (d, r) => some (digitsToNat d, r)

/-- Leftmost match: try an anchored matcher at every start position from
the left, as the JavaScript regex engine does for an unanchored pattern. -/
def scanFirst (p : Str → Option α) : Str → Option α
  | [] => p []
  | c :: t =>
    match p (c :: t) with
    | some r => some r
    | none => scanFirst p t

/-- Latest match: try an anchored matcher at every start position from the
right.  This realises a greedy dot-star (or bracket class star) before the
anchored pattern: the longest gap is tried first, with backtracking to
earlier positions when the remainder fails. -/
def scanLast (p : Str → Option α) : Str → Option α
  | [] => p []
  | c :: t =>
    match scanLast p t with
    | some r => some r
    | none => p (c :: t)

/-! Anchored matchers for the four regexes of
RealEvaluationEngine.parseTestOutput, all carrying the i flag.
Captures are returned as the list of captured groups in order. -/

/-- Anchored matcher for the jest pattern
Tests: backslash-s star (d+) backslash-s star failed, ... passed, ... total. -/
def jestStatsAt (s : Str) : Option (List Nat) := do
  let s ← stripLitCI "tests:".toList s
  let s := dropWs s
  let (a, s) ← stripDigits s
  let s := dropWs s
  let s ← stripLitCI "failed,".toList s
  let s := dropWs s
  let (b, s) ← stripDigits s
  let s := dropWs s
  let s ← stripLitCI "passed,".toList s
  let s := dropWs s
  let (c, s) ← stripDigits s
  let s := dropWs s
  let _ ← stripLitCI "total".toList s
  pure [a, b, c]

/-- Anchored matcher for the mocha pattern
passing: backslash-s star (d+), backslash-s star failing: backslash-s star (d+). -/
def mochaStatsAt (s : Str) : Option (List Nat) := do
  let s ← stripLitCI "passing:".toList s
  let s := dropWs s
  let (a, s) ← stripDigits s
  let s ← stripLitCI ",".toList s
  let s := dropWs s
  let s ← stripLitCI "failing:".toList s
  let s := dropWs s
  let (b, _) ← stripDigits s
  pure [a, b]

/-- Innermost part of the TAP pattern: hash fail followed by a number. -/
def tapFailAt (s : Str) : Option Nat := do
  let s ← stripLitCI "# fail ".toList s
  let (c, _) ← stripDigits s
  pure c

/-- Middle part of the TAP pattern: hash pass, a number, then a greedy gap
before the innermost part. -/
def tapPassAt (s : Str) : Option (Nat × Nat) := do
  let s ← stripLitCI "# pass ".toList s
  let (b, s) ← stripDigits s
  let c ← scanLast tapFailAt s
  pure (b, c)

/-- Anchored matcher for the TAP pattern
hash tests (d+) gap hash pass (d+) gap hash fail (d+),
with greedy gaps realised by scanLast. -/
def tapStatsAt (s : Str) : Option (List Nat) := do
  let s ← stripLitCI "# tests ".toList s
  let (a, s) ← stripDigits s
  let (b, c) ← scanLast tapPassAt s
  pure [a, b, c]

/-- Anchored matcher for the generic pattern
(d+) backslash-s star tests?, ... (d+) ... passed, ... (d+) ... failed.
The optional letter s is greedy; since the following literal is a comma,
consuming a present s is forced. -/
def genericStatsAt (s : Str) : Option (List Nat) := do
  let (a, s) ← stripDigits s
  let s := dropWs s
  let s ← stripLitCI "test".toList s
  let s := match s with
    | c :: t => if lowerChar c = 's' then t else c :: t
    | [] => []
  let s ← stripLitCI ",".toList s
  let s := dropWs s
  let (b, s) ← stripDigits s
  let s := dropWs s
  let s ← stripLitCI "passed,".toList s
  let s := dropWs s
  let (c, s) ← stripDigits s
  let s := dropWs s
  let _ ← stripLitCI "failed".toList s
  pure [a, b, c]

/-- Source text of the jest pattern, exactly as pattern.source yields it. -/
def jestSrc : Str :=
  "Tests:\\s*(\\d+)\\s*failed,\\s*(\\d+)\\s*passed,\\s*(\\d+)\\s*total".toList

/-- Source text of the mocha pattern. -/
def mochaSrc : Str := "passing:\\s*(\\d+),\\s*failing:\\s*(\\d+)".toList

/-- Source text of the TAP pattern. -/
def tapSrc : Str :=
  "# tests (\\d+)[\\s\\S]*# pass (\\d+)[\\s\\S]*# fail (\\d+)".toList

/-- Source text of the generic pattern. -/
def genericSrc : Str :=
  "(\\d+)\\s*tests?,\\s*(\\d+)\\s*passed,\\s*(\\d+)\\s*failed".toList

/-- Counts extracted by RealEvaluationEngine.parseTestOutput.  JavaScript
numbers here can be NaN -- parseInt of an absent capture group -- which is
modelled by none; a present number n is modelled by some n. -/
structure ParsedCounts where
  testsRun : Option Nat
  testsPassed : Option Nat
  testsFailed : Option Nat
deriving DecidableEq, Repr

/-- Branch selection on a successful match, following the source: the
branch guards call pattern.source.includes with texts such as
failed.*passed.*total, a literal substring search over the pattern source
shown above.  Captured group i of the regex is m.get? (i-1); an absent
group makes parseInt return NaN, hence none. -/
def assignFromMatch (src : Str) (m : List Nat) : ParsedCounts :=
  if includesSub src "failed.*passed.*total".toList then
    { testsFailed := m.get? 0, testsPassed := m.get? 1, testsRun := m.get? 2 }
  else if includesSub src "passing.*failing".toList then
    { testsPassed := m.get? 0, testsFailed := m.get? 1,
      testsRun :=
        match m.get? 0, m.get? 1 with
        | some a, some b => some (a + b)
        | _, _ => none }
  else if includesSub src "tests.*pass.*fail".toList then
    { testsRun := m.get? 0, testsPassed := m.get? 1, testsFailed := m.get? 2 }
  else
    { testsRun := m.get? 0, testsPassed := m.get? 1, testsFailed := m.get? 2 }

/-- Count of global-regex matches of an ordered alternation of literals,
as used by the glyph-counting fallback.  At each position the alternatives
are tried in order; a match advances past the matched text (JavaScript
advances by at least one character), otherwise the scan advances by one. -/
def countAlt (alts : List Str) : Str → Nat
  | [] => 0
  | c :: t =>
    match alts.find? (fun a => a.isPrefixOf (c :: t)) with
    | some a => 1 + countAlt alts ((c :: t).drop (max 1 a.length))
    | none => countAlt alts t
termination_by s => s.length
decreasing_by
  all_goals simp [List.length_drop]

/-- Alternatives of the pass-glyph regex, case sensitive, in source order. -/
def passGlyphs : List Str :=
  ["✓".toList, "√".toList, "pass".toList, "PASS".toList]

/-- Alternatives of the fail-glyph regex, case sensitive, in source order. -/
def failGlyphs : List Str :=
  ["✗".toList, "×".toList, "fail".toList, "FAIL".toList,
   "error".toList, "ERROR".toList]

/-- Embedding of RealEvaluationEngine.parseTestOutput: the four patterns
are tried in order and the first match is assigned through the branch
guards; when the resulting testsRun equals 0 (also when no pattern
matched, since the counts start at 0) the glyph-counting fallback
recomputes all three counts. -/
def parseTestOutput (output : Str) : ParsedCounts :=
  let step1 : ParsedCounts :=
    match scanFirst jestStatsAt output with
    | some m => assignFromMatch jestSrc m
    | none =>
      match scanFirst mochaStatsAt output with
      | some m => assignFromMatch mochaSrc m
      | none =>
        match scanFirst tapStatsAt output with
        | some m => assignFromMatch tapSrc m
        | none =>
          match scanFirst genericStatsAt output with
          | some m => assignFromMatch genericSrc m
          | none =>
            { testsRun := some 0, testsPassed := some 0, testsFailed := some 0 }
  if step1.testsRun = some 0 then
    let p := countAlt passGlyphs output
    let f := countAlt failGlyphs output
    { testsRun := some (p + f), testsPassed := some p, testsFailed := some f }
  else step1

/-! Error classification (RealEvaluationEngine.classifyError). -/

/-- Embedding of classifyError: the error text is lower-cased once and
matched against a fixed if-chain of keyword pairs; the first match wins. -/
def classifyError (error : Str) : Str :=
  let el := lowerStr error
  if includesSub el "timeout".toList then "Timeout".toList
  else if includesSub el "compilation".toList || includesSub el "compile".toList then
    "Compilation Error".toList
  else if includesSub el "test".toList || includesSub el "assertion".toList then
    "Test Failure".toList
  else if includesSub el "patch".toList || includesSub el "apply".toList then
    "Patch Application Failed".toList
  else if includesSub el "install".toList || includesSub el "dependency".toList then
    "Dependency Error".toList
  else if includesSub el "git".toList || includesSub el "clone".toList then
    "Repository Error".toList
  else if includesSub el "import".toList || includesSub el "module".toList then
    "Import Error".toList
  else "Other Error".toList

/-- The fixed, ordered bucket list of the error taxonomy: keywords paired
with the bucket label, in the priority order of the if-chain. -/
def errorBuckets : List (List Str × Str) :=
  [(["timeout".toList], "Timeout".toList),
   (["compilation".toList, "compile".toList], "Compilation Error".toList),
   (["test".toList, "assertion".toList], "Test Failure".toList),
   (["patch".toList, "apply".toList], "Patch Application Failed".toList),
   (["install".toList, "dependency".toList], "Dependency Error".toList),
   (["git".toList, "clone".toList], "Repository Error".toList),
   (["import".toList, "module".toList], "Import Error".toList)]

/-- First-matching-bucket formulation of the classifier: the first bucket
of the ordered list one of whose keywords occurs in the lower-cased input
wins, and the default label is Other Error. -/
def classifyByBuckets (error : Str) : Str :=
  match errorBuckets.find? (fun b => b.1.any (fun k => includesSub (lowerStr error) k)) with
  | some b => b.2
  | none => "Other Error".toList

/-! Data model of the evaluation engine: raw per-instance results,
formatted aggregate results, and patch submissions. -/

/-- A patch submission: the instance it targets and the candidate diff. -/
structure PatchSubmission where
  instance_id : Str
  model_patch : Str
deriving DecidableEq, Repr

/-- Metadata of a raw result.  Optional fields that a given construction
site leaves out are none.  The timestamp field (a wall-clock ISO string)
is omitted from the model. -/
structure RawMetadata where
  execution_time : Option Nat := none
  tests_run : Option Nat := none
  tests_passed : Option Nat := none
  tests_failed : Option Nat := none
  compilation_success : Option Bool := none
  compilation_failed : Option Bool := none
  evaluation_failed : Option Bool := none
  evaluation_error : Option Bool := none
deriving DecidableEq, Repr

/-- A raw evaluation result, one per evaluated patch (the source interface
is named RawEvaluationResults). -/
structure RawEvaluationResults where
  instance_id : Str
  resolved : Bool
  test_output : Str
  patch_applied : Bool
  error : Option Str := none
  metadata : RawMetadata := {}
deriving DecidableEq, Repr

/-- Per-instance entry of the formatted results. -/
structure InstanceResult where
  instance_id : Str
  resolved : Bool
  tests_passed : Bool
  compilation_success : Bool
  execution_time : Nat
  error : Option Str
deriving DecidableEq, Repr

/-- Complexity buckets of the aggregate summary. -/
structure ComplexityGroups where
  low : Nat
  medium : Nat
  high : Nat
deriving DecidableEq, Repr

/-- Aggregate summary.  Token usage and cost are constant placeholders in
the source. -/
structure EvalSummary where
  avg_execution_time : ℚ
  avg_token_usage : ℚ
  total_cost : ℚ
  success_by_complexity : ComplexityGroups
  common_errors : List (Str × Nat)
deriving DecidableEq, Repr

/-- Formatted evaluation results.  JavaScript numbers produced by exact
divisions of small naturals are modelled by rationals. -/
structure EvaluationResults where
  total_instances : Nat
  resolved_instances : Nat
  resolution_rate : ℚ
  exact_matches : Nat
  test_pass_rate : ℚ
  compilation_success_rate : ℚ
  per_instance_results : List InstanceResult
  summary : EvalSummary
deriving DecidableEq, Repr

/-- Embedding of calculateAverage: sum divided by length, 0 on empty. -/
def calculateAverage (numbers : List ℚ) : ℚ :=
  if numbers.length = 0 then 0 else numbers.sum / numbers.length

/-- Embedding of groupByComplexity: a positional round-robin over indices
modulo 3, adding 1 for each resolved instance. -/
def groupByComplexity (results : List InstanceResult) : ComplexityGroups :=
  results.enum.foldl
    (fun g ir =>
      let i := ir.1
      let r := ir.2
      if i % 3 = 0 then { g with low := g.low + (if r.resolved then 1 else 0) }
      else if i % 3 = 1 then { g with medium := g.medium + (if r.resolved then 1 else 0) }
      else { g with high := g.high + (if r.resolved then 1 else 0) })
    { low := 0, medium := 0, high := 0 }

/-- Counting map over an association list that preserves first-insertion
order, as a JavaScript Map does. -/
def bumpCount : List (Str × Nat) → Str → List (Str × Nat)
  | [], k => [(k, 1)]
  | (a, n) :: t, k => if a = k then (a, n + 1) :: t else (a, n) :: bumpCount t k

/-- Embedding of extractCommonErrors: count classified error types (the
truthiness test on result.error skips both absent and empty strings),
sort by descending count with a stable sort, and keep the top five. -/
def extractCommonErrors (results : List InstanceResult) : List (Str × Nat) :=
  let counts := results.foldl
    (fun acc r =>
      match r.error with
      | some e => if e.isEmpty then acc else bumpCount acc (classifyError e)
      | none => acc)
    []
  (counts.mergeSort (fun a b => b.2 ≤ a.2)).take 5

/-- Embedding of formatResults.  The patches argument is accepted, as in
the source, and unused by the computation; rates divide by the number of
raw results, guarded to 0 on an empty batch.  The expression
raw.patch_applied and not metadata.compilation_failed translates the
source test patch_applied not-strictly-equal false combined with the
falsiness of an absent compilation_failed field. -/
def formatResults (rawResults : List RawEvaluationResults)
    (_patches : List PatchSubmission) : EvaluationResults :=
  let instanceResults : List InstanceResult := rawResults.map (fun raw =>
    { instance_id := raw.instance_id
      resolved := raw.resolved
      tests_passed := raw.resolved
      compilation_success := raw.patch_applied && !(raw.metadata.compilation_failed.getD false)
      execution_time := raw.metadata.execution_time.getD 0
      error := raw.error })
  let resolved := (instanceResults.filter (·.resolved)).length
  let total := instanceResults.length
  let compiled := (instanceResults.filter (·.compilation_success)).length
  let testsPassed := (instanceResults.filter (·.tests_passed)).length
  { total_instances := total
    resolved_instances := resolved
    resolution_rate := if total > 0 then (resolved : ℚ) / total else 0
    exact_matches := resolved
    test_pass_rate := if total > 0 then (testsPassed : ℚ) / total else 0
    compilation_success_rate := if total > 0 then (compiled : ℚ) / total else 0
    per_instance_results := instanceResults
    summary :=
      { avg_execution_time := calculateAverage (instanceResults.map (fun r => (r.execution_time : ℚ)))
        avg_token_usage := 0
        total_cost := 0
        success_by_complexity := groupByComplexity instanceResults
        common_errors := extractCommonErrors instanceResults } }

/-! Batch loop of RealEvaluationEngine.evaluate.  Loading instances and
the per-patch pipeline are external interactions here: each patch is
mapped to the settled outcome of its evaluation promise. -/

/-- Settled outcome of one evaluation promise: fulfilled with a raw
result, or rejected with a reason.  JavaScript Error reasons are modelled
by their message text. -/
inductive EvalOutcome where
  | fulfilled (value : RawEvaluationResults)
  | rejected (reason : Str)
deriving DecidableEq, Repr

/-- The raw result synthesised for a rejected evaluation, as built in the
rejected branch of the batch loop.  The batch index recovered through
indexOf on the settled-result object resolves, by reference equality, to
the position of the very patch being processed. -/
def mkRejectedResult (p : PatchSubmission) (reason : Str) : RawEvaluationResults :=
  { instance_id := p.instance_id
    resolved := false
    test_output := "Evaluation failed: ".toList ++ reason
    patch_applied := false
    error := some reason
    metadata := { evaluation_failed := some true } }

/-- Conversion of one settled outcome into the raw result pushed by the
batch loop. -/
def settleOutcome (evalF : PatchSubmission → EvalOutcome) (p : PatchSubmission) :
    RawEvaluationResults :=
  match evalF p with
  | .fulfilled v => v
  | .rejected r => mkRejectedResult p r

/-- Embedding of the batch loop of evaluate: slices of maxParallel patches
are settled batch by batch and every settled outcome is pushed, fulfilled
or rejected alike.  The loop index advances by maxParallel, which the
constructor forces to be at least 1; for maxParallel equal to 0 the
JavaScript loop would not terminate, and the claims assume positivity. -/
def evaluateRaw (evalF : PatchSubmission → EvalOutcome) (maxParallel : Nat) :
    List PatchSubmission → List RawEvaluationResults
  | [] => []
  | p :: ps =>
    ((p :: ps).take maxParallel).map (settleOutcome evalF)
      ++ evaluateRaw evalF maxParallel (ps.drop (maxParallel - 1))
termination_by l => l.length
decreasing_by
  simp [List.length_drop]
  omega

/-! Patch application.  Two implementations exist in the repository: the
one on RealEvaluationEngine (empty-patch short-circuit, git apply with a
patch-command fallback, and a finally block removing the temporary file)
and the one on RepositoryManager (no short-circuit, no fallback, removal
only on the success path).  Both are modelled as trace-producing
functions: the trace records, in order, the filesystem writes, the child
processes spawned, and the unlink attempts. -/

/-- One observable external event of a patch application. -/
inductive FsEvent where
  | writeFile (name : Str)
  | runCmd (cmd : List Str)
  | unlink (name : Str)
deriving DecidableEq, Repr

/-- Name of the temporary patch file of the engine implementation.  The
source name carries a Date.now wall-clock suffix, abstracted away. -/
def enginePatchFile : Str := "temp.patch".toList

/-- The git apply command line of the engine implementation. -/
def engineGitApplyCmd : List Str :=
  ["git".toList, "apply".toList, "--ignore-whitespace".toList,
   "--ignore-space-change".toList, enginePatchFile]

/-- The fallback patch command line of the engine implementation. -/
def enginePatchCmd : List Str :=
  ["patch".toList, "-p1".toList, "--ignore-whitespace".toList,
   "-i".toList, enginePatchFile]

/-- Outcomes of the two child processes the engine implementation may
spawn.  A false entry is a rejected runCommand promise (non-zero exit,
timeout, or spawn failure). -/
structure ApplyEnv where
  gitApplyOk : Bool
  patchCmdOk : Bool
deriving DecidableEq, Repr

/-- Embedding of RealEvaluationEngine.applyPatch.  A blank patch returns
true at once with no external event.  Otherwise the patch is written to a
temporary file, git apply is tried, on rejection the patch command is
tried, and a finally block always attempts the unlink of the temporary
file. -/
def engineApplyPatch (env : ApplyEnv) (patchContent : Str) : Bool × List FsEvent :=
  if isBlank patchContent then (true, [])
  else if env.gitApplyOk then
    (true, [FsEvent.writeFile enginePatchFile, FsEvent.runCmd engineGitApplyCmd,
            FsEvent.unlink enginePatchFile])
  else if env.patchCmdOk then
    (true, [FsEvent.writeFile enginePatchFile, FsEvent.runCmd engineGitApplyCmd,
            FsEvent.runCmd enginePatchCmd, FsEvent.unlink enginePatchFile])
  else
    (false, [FsEvent.writeFile enginePatchFile, FsEvent.runCmd engineGitApplyCmd,
             FsEvent.runCmd enginePatchCmd, FsEvent.unlink enginePatchFile])

/-- Name of the temporary patch file of the RepositoryManager
implementation (a fixed name in the source). -/
def rmPatchFile : Str := "swe-bench.patch".toList

/-- The git apply command line of the RepositoryManager implementation. -/
def rmGitApplyCmd : List Str := ["git".toList, "apply".toList, rmPatchFile]

/-- Outcome of one execAsync call: resolution with captured stdout and
stderr, or rejection (non-zero exit or spawn failure). -/
inductive ExecResult where
  | ok (stdout stderr : Str)
  | err
deriving DecidableEq, Repr

/-- Environment of RepositoryManager.applyPatch: the git apply outcome and
whether the unlink of the temporary file succeeds (an unlink failure
raises and is caught by the surrounding catch). -/
structure RMApplyEnv where
  gitApply : ExecResult
  unlinkOk : Bool
deriving DecidableEq, Repr

/-- Embedding of RepositoryManager.applyPatch.  The patch text is written
to a fixed temporary file unconditionally (there is no empty-patch
short-circuit) and git apply is run; a rejection, or resolved stderr that
is nonempty without containing the word warning, returns false without
removing the file.  Only the success path unlinks the file. -/
def rmApplyPatch (env : RMApplyEnv) (_patch : Str) : Bool × List FsEvent :=
  match env.gitApply with
  | .err => (false, [FsEvent.writeFile rmPatchFile, FsEvent.runCmd rmGitApplyCmd])
  | .ok _ stderr =>
    if stderr ≠ [] ∧ ¬(includesSub stderr "warning".toList = true) then
      (false, [FsEvent.writeFile rmPatchFile, FsEvent.runCmd rmGitApplyCmd])
    else if env.unlinkOk then
      (true, [FsEvent.writeFile rmPatchFile, FsEvent.runCmd rmGitApplyCmd,
              FsEvent.unlink rmPatchFile])
    else
      (false, [FsEvent.writeFile rmPatchFile, FsEvent.runCmd rmGitApplyCmd,
               FsEvent.unlink rmPatchFile])

/-! Test execution on RepositoryManager: framework detection, the test
command, structured-report parsing, and the regex fallback. -/

/-- The slice of a parsed package.json that the embedded code reads:
the key set of dependencies merged with devDependencies (a key present
with a truthy version string), and the test and build script entries. -/
structure PkgJson where
  depNames : List Str
  scripts_test : Option Str := none
  scripts_build : Option Str := none
deriving DecidableEq, Repr

/-- Dependency-presence test on the merged dependency map. -/
def hasDep (p : PkgJson) (name : Str) : Bool := p.depNames.contains name

/-- Environment of detectTestFramework: its own independent read of
package.json (none when reading or parsing throws), the presence of test
and spec directories, the test files found by the file search, and the
content of the first one (none when reading it throws). -/
structure DetectEnv where
  pkgRead : Option PkgJson
  testDirExists : Bool := false
  specDirExists : Bool := false
  testFiles : List Str := []
  firstTestFileContent : Option Str := none
deriving DecidableEq, Repr

/-- Embedding of RepositoryManager.detectTestFramework: dependency map
first, then the test script text, then test-directory heuristics, with
unknown as the final default and on any read error. -/
def detectTestFramework (env : DetectEnv) : Str :=
  match env.pkgRead with
  | none => "unknown".toList
  | some pkg =>
    if hasDep pkg "jest".toList || hasDep pkg "@types/jest".toList then "jest".toList
    else if hasDep pkg "vitest".toList then "vitest".toList
    else if hasDep pkg "mocha".toList || hasDep pkg "@types/mocha".toList
        || hasDep pkg "chai".toList then "mocha".toList
    else if hasDep pkg "karma".toList || hasDep pkg "karma-jasmine".toList
        || hasDep pkg "karma-chrome-launcher".toList then "karma".toList
    else if hasDep pkg "tape".toList || hasDep pkg "tape-catch".toList then "tape".toList
    else if hasDep pkg "@testing-library/react".toList then "jest".toList
    else if hasDep pkg "jasmine".toList || hasDep pkg "@types/jasmine".toList then
      "jasmine".toList
    else
      let ts := pkg.scripts_test.getD []
      if includesSub ts "jest".toList then "jest".toList
      else if includesSub ts "vitest".toList then "vitest".toList
      else if includesSub ts "mocha".toList then "mocha".toList
      else if includesSub ts "karma".toList then "karma".toList
      else if includesSub ts "tape".toList then "tape".toList
      else if includesSub ts "jasmine".toList then "jasmine".toList
      else if includesSub ts "grunt test".toList || includesSub ts "gulp test".toList then
        "mocha".toList
      else if env.testDirExists || env.specDirExists then
        match env.testFiles with
        | [] => "mocha".toList
        | _ :: _ =>
          match env.firstTestFileContent with
          | none => "mocha".toList
          | some tc =>
            if includesSub tc "describe(".toList && includesSub tc "it(".toList then
              if includesSub tc "expect(".toList && includesSub tc ".toBe(".toList then
                "jest".toList
              else if includesSub tc "expect(".toList && includesSub tc ".to.".toList then
                "mocha".toList
              else "mocha".toList
            else if includesSub tc "test(".toList then "tape".toList
            else "mocha".toList
      else "unknown".toList

/-- A single failure entry of TestResults. -/
structure TestFailureEntry where
  test_name : Str
  error_message : Str
deriving DecidableEq, Repr

/-- Test results of RepositoryManager.runTests. -/
structure TestResults where
  total : Nat
  passed : Nat
  failed : Nat
  skipped : Nat
  duration : Nat
  failures : List TestFailureEntry
deriving DecidableEq, Repr

/-- The all-zero TestResults returned when there is nothing to run. -/
def zeroTestResults : TestResults :=
  { total := 0, passed := 0, failed := 0, skipped := 0, duration := 0, failures := [] }

/-! Anchored matchers for the six fallback regexes of runTests, all
carrying the i flag. -/

/-- Anchored matcher for (d+) whitespace-plus followed by a literal. -/
def numBeforeLitAt (lit : Str) (s : Str) : Option Nat := do
  let (n, s) ← stripDigits s
  let s ← stripWsPlus s
  let _ ← stripLitCI lit s
  pure n

/-- Anchored matcher for Tests: whitespace-plus (d+) whitespace-plus
followed by a literal. -/
def testsColonNumAt (lit : Str) (s : Str) : Option Nat := do
  let s ← stripLitCI "tests:".toList s
  let s ← stripWsPlus s
  let (n, s) ← stripDigits s
  let s ← stripWsPlus s
  let _ ← stripLitCI lit s
  pure n

/-- The pattern (d+) passing. -/
def matchNumPassing (s : Str) : Option Nat := scanFirst (numBeforeLitAt "passing".toList) s

/-- The pattern (d+) failing. -/
def matchNumFailing (s : Str) : Option Nat := scanFirst (numBeforeLitAt "failing".toList) s

/-- The pattern (d+) pass. -/
def matchNumPass (s : Str) : Option Nat := scanFirst (numBeforeLitAt "pass".toList) s

/-- The pattern (d+) fail. -/
def matchNumFail (s : Str) : Option Nat := scanFirst (numBeforeLitAt "fail".toList) s

/-- The pattern Tests: (d+) passed. -/
def matchJestPassed (s : Str) : Option Nat := scanFirst (testsColonNumAt "passed".toList) s

/-- The pattern Tests: (d+) failed. -/
def matchJestFailed (s : Str) : Option Nat := scanFirst (testsColonNumAt "failed".toList) s

/-- Embedding of the regex fallback of runTests, entered when the JSON
results file cannot be read or parsed.  The pass and fail counts come
from the first matching pattern of each ordered alternative list; when
the total is 0 and stderr shows neither Error nor failed, the run is
counted as one passing test; a failure entry is appended when a failure
count or an error indicator is present. -/
def parseFallbackRM (stdout stderr : Str) (duration : Nat) : TestResults :=
  let combined := stdout ++ '\n' :: stderr
  let passMatch :=
    match matchNumPassing combined with
    | some n => some n
    | none =>
      match matchNumPass combined with
      | some n => some n
      | none => matchJestPassed combined
  let failMatch :=
    match matchNumFailing combined with
    | some n => some n
    | none =>
      match matchNumFail combined with
      | some n => some n
      | none => matchJestFailed combined
  let passed := passMatch.getD 0
  let failed := failMatch.getD 0
  let total := passed + failed
  let stderrHasError :=
    includesSub stderr "Error".toList || includesSub stderr "failed".toList
  let (passed, total) :=
    if total = 0 && !stderrHasError then (1, 1) else (passed, total)
  if failed > 0 || stderrHasError then
    let errorMessage :=
      if stderr ≠ [] then stderr
      else if stdout ≠ [] then stdout
      else "Test execution failed".toList
    let failures := [⟨"Test suite".toList, errorMessage.take 1000⟩]
    if failed = 0 then
      { total := max total 1, passed := passed, failed := 1, skipped := 0,
        duration := duration, failures := failures }
    else
      { total := total, passed := passed, failed := failed, skipped := 0,
        duration := duration, failures := failures }
  else
    { total := total, passed := passed, failed := failed, skipped := 0,
      duration := duration, failures := [] }

/-- The error object of a mocha failure entry. -/
structure MochaErr where
  message : Option Str := none
  stack : Option Str := none
deriving DecidableEq, Repr

/-- One entry of the failures array of a mocha JSON report. -/
structure MochaFailure where
  fullTitle : Option Str := none
  title : Option Str := none
  err : Option MochaErr := none
deriving DecidableEq, Repr

/-- The stats object of a mocha JSON report. -/
structure MochaStats where
  tests : Option Nat := none
  passes : Option Nat := none
  failures : Option Nat := none
  pending : Option Nat := none
deriving DecidableEq, Repr

/-- One assertion of a jest JSON report. -/
structure JestAssertion where
  status : Str
  title : Option Str := none
  failureMessages : Option (List Str) := none
deriving DecidableEq, Repr

/-- One file entry of a jest JSON report. -/
structure JestFileResult where
  assertionResults : Option (List JestAssertion) := none
deriving DecidableEq, Repr

/-- The parsed JSON report file, covering the fields read for either
framework; absent fields are none. -/
structure ReportJson where
  numTotalTests : Option Nat := none
  numPassedTests : Option Nat := none
  numFailedTests : Option Nat := none
  numPendingTests : Option Nat := none
  testResults : Option (List JestFileResult) := none
  stats : Option MochaStats := none
  failures : Option (List MochaFailure) := none
deriving DecidableEq, Repr

/-- Newline-joined failure messages; an empty join is falsy in the source
and replaced by the fixed text. -/
def joinedFailureMessages (msgs : Option (List Str)) : Str :=
  match msgs with
  | none => "Test failed".toList
  | some l =>
    let j := (l.intersperse "\n".toList).flatten
    if j = [] then "Test failed".toList else j

/-- Failure entries extracted from the jest report. -/
def jestFailures (r : ReportJson) : List TestFailureEntry :=
  match r.testResults with
  | none => []
  | some files =>
    files.foldl
      (fun acc f =>
        match f.assertionResults with
        | none => acc
        | some asserts =>
          acc ++ (asserts.filter (fun a => a.status = "failed".toList)).map
            (fun a =>
              { test_name := a.title.getD "Unknown test".toList
                error_message := joinedFailureMessages a.failureMessages }))
      []

/-- Parsing of a jest JSON report into TestResults. -/
def parseJestReport (r : ReportJson) (duration : Nat) : TestResults :=
  { total := r.numTotalTests.getD 0
    passed := r.numPassedTests.getD 0
    failed := r.numFailedTests.getD 0
    skipped := r.numPendingTests.getD 0
    duration := duration
    failures := jestFailures r }

/-- Failure entries extracted from the mocha report: fullTitle, then
title, then a fixed name; the error message, then the stack, then a fixed
text. -/
def mochaFailureEntries (r : ReportJson) : List TestFailureEntry :=
  match r.failures with
  | none => []
  | some fl =>
    fl.map (fun f =>
      { test_name :=
          match f.fullTitle with
          | some t => t
          | none => f.title.getD "Unknown test".toList
        error_message :=
          match f.err with
          | none => "Test failed".toList
          | some e =>
            match e.message with
            | some m => m
            | none => e.stack.getD "Test failed".toList })

/-- Parsing of a mocha JSON report into TestResults: counts come from the
stats object when present, zero otherwise. -/
def parseMochaReport (r : ReportJson) (duration : Nat) : TestResults :=
  let base : TestResults :=
    match r.stats with
    | some st =>
      { total := st.tests.getD 0, passed := st.passes.getD 0,
        failed := st.failures.getD 0, skipped := st.pending.getD 0,
        duration := duration, failures := [] }
    | none => { zeroTestResults with duration := duration }
  { base with failures := mochaFailureEntries r }

/-- Result of reading and parsing package.json inside runTests: the file
is absent, or JSON.parse throws with a message, or a parsed object. -/
inductive PkgFileRead where
  | missing
  | invalid (msg : Str)
  | found (pkg : PkgJson)
deriving DecidableEq, Repr

/-- Outcome of the execAsync call running the test command: resolution
with captured output, or rejection carrying the captured output of the
failed command (either stream may be absent on the error object). -/
inductive TestExecOut where
  | ok (stdout stderr : Str)
  | err (stdout stderr : Option Str)
deriving DecidableEq, Repr

/-- Environment of runTests: the package.json read, the environment of
the independent read inside detectTestFramework, the test command
outcome, the parsed JSON report file (none when missing or unparseable),
and the measured duration. -/
structure RunTestsEnv where
  packageJson : PkgFileRead
  detect : DetectEnv
  exec : TestExecOut
  report : Option ReportJson := none
  duration : Nat := 0
deriving DecidableEq, Repr

/-- The full test command string for a detected framework, with the
output redirection appended where the source adds one. -/
def testCommandFor (fw : Str) : Str :=
  if fw = "jest".toList then
    "npm test -- --json --outputFile=test-results.json --passWithNoTests".toList
  else if fw = "mocha".toList then
    "npm test -- --reporter json > test-results.json 2>&1".toList
  else if fw = "vitest".toList then
    "npm test -- --reporter=json --outputFile=test-results.json".toList
  else if fw = "karma".toList then
    "npm test -- --single-run --reporters json > test-results.json 2>&1".toList
  else if fw = "tape".toList then
    "npm test > test-results.json 2>&1".toList
  else "npm test".toList

/-- Embedding of RepositoryManager.runTests, returning the results and
the trace of child-process command lines.  No package.json, or no test
script, returns the zeroed results with no command run.  A throwing
JSON.parse of package.json reaches the outer catch, which returns one
synthetic failure.  Otherwise the framework-specific command runs, the
JSON report is preferred, and the regex fallback handles a missing or
unparseable report. -/
def runTestsRM (env : RunTestsEnv) : TestResults × List Str :=
  match env.packageJson with
  | .missing => (zeroTestResults, [])
  | .invalid msg =>
    ({ total := 0, passed := 0, failed := 1, skipped := 0, duration := 0,
       failures := [{ test_name := "Test execution".toList,
                      error_message := if msg = [] then "Unknown error".toList else msg }] },
     [])
  | .found pkg =>
    match pkg.scripts_test with
    | none => (zeroTestResults, [])
    | some _ =>
      let fw := detectTestFramework env.detect
      let cmd := testCommandFor fw
      let (stdout, stderr) :=
        match env.exec with
        | .ok o e => (o, e)
        | .err o e => (o.getD [], e.getD [])
      let results :=
        match env.report with
        | some r =>
          if fw = "jest".toList then parseJestReport r env.duration
          else if fw = "mocha".toList then parseMochaReport r env.duration
          else { zeroTestResults with duration := env.duration }
        | none => parseFallbackRM stdout stderr env.duration
      (results, [cmd])

/-! Helper lemmas. -/

/-- Lower-casing a character twice equals lower-casing it once. -/
theorem lowerChar_idem (c : Char) : lowerChar (lowerChar c) = lowerChar c := by
  unfold lowerChar
  by_cases h : 65 ≤ c.toNat ∧ c.toNat ≤ 90
  · have hv : (c.toNat + 32).isValidChar := Or.inl (by omega)
    have ht : (Char.ofNat (c.toNat + 32)).toNat = c.toNat + 32 := by
      rw [Char.ofNat, dif_pos hv]; rfl
    rw [if_pos h, if_neg (by rw [ht]; omega)]
  · rw [if_neg h, if_neg h]

/-- Lower-casing a string twice equals lower-casing it once. -/
theorem lowerStr_idem (s : Str) : lowerStr (lowerStr s) = lowerStr s := by
  unfold lowerStr
  rw [List.map_map]
  exact List.map_congr_left (fun c _ => lowerChar_idem c)

/-- A lower-cased input classifies like the original input. -/
theorem classifyError_ci (s : Str) : classifyError (lowerStr s) = classifyError s := by
  simp only [classifyError, lowerStr_idem]

/-- The if-chain classifier agrees with the first-matching-bucket view of
the ordered bucket list. -/
theorem classifyError_eq_buckets (s : Str) : classifyError s = classifyByBuckets s := by
  unfold classifyError classifyByBuckets errorBuckets
  simp only [List.find?_cons, List.any_cons, List.any_nil, Bool.or_false]
  cases h1 : includesSub (lowerStr s) "timeout".toList
  · simp only [h1]
    cases h2 : (includesSub (lowerStr s) "compilation".toList
        || includesSub (lowerStr s) "compile".toList)
    · simp only [h2]
      cases h3 : (includesSub (lowerStr s) "test".toList
          || includesSub (lowerStr s) "assertion".toList)
      · simp only [h3]
        cases h4 : (includesSub (lowerStr s) "patch".toList
            || includesSub (lowerStr s) "apply".toList)
        · simp only [h4]
          cases h5 : (includesSub (lowerStr s) "install".toList
              || includesSub (lowerStr s) "dependency".toList)
          · simp only [h5]
            cases h6 : (includesSub (lowerStr s) "git".toList
                || includesSub (lowerStr s) "clone".toList)
            · simp only [h6]
              cases h7 : (includesSub (lowerStr s) "import".toList
                  || includesSub (lowerStr s) "module".toList)
              · simp [h7]
              · simp [h7]
            · simp [h6]
          · simp [h5]
        · simp [h4]
      · simp [h3]
    · simp [h2]
  · simp [h1]

/-- A substring of a string is a substring of any left extension. -/
theorem includesSub_append_right (p s n : Str) (h : includesSub s n = true) :
    includesSub (p ++ s) n = true := by
  induction p with
  | nil => simpa using h
  | cons c t ih =>
    simp only [List.cons_append, includesSub, Bool.or_eq_true]
    exact Or.inr ih

/-- A needle absent from a concatenation is absent from its right part. -/
theorem includesSub_suffix_false (st : Str) (a : Char) (s n : Str)
    (h : includesSub (st ++ a :: s) n = false) : includesSub s n = false := by
  cases hx : includesSub s n
  · rfl
  · have h2 : includesSub ((st ++ [a]) ++ s) n = true := includesSub_append_right _ _ _ hx
    rw [List.append_assoc] at h2
    simp only [List.singleton_append] at h2
    rw [h2] at h
    exact absurd h (by simp)

/-- Bounded induction form of the batch-loop lemma: slicing into batches
of any positive size and settling every outcome is the same as settling
each patch in order. -/
theorem evaluateRaw_eq_map_aux (evalF : PatchSubmission → EvalOutcome) (k : Nat) :
    ∀ (n : Nat) (l : List PatchSubmission), l.length ≤ n →
      evaluateRaw evalF (k + 1) l = l.map (settleOutcome evalF) := by
  intro n
  induction n with
  | zero =>
    intro l hl
    have : l = [] := List.eq_nil_of_length_eq_zero (by omega)
    subst this
    simp [evaluateRaw]
  | succ n ih =>
    intro l hl
    cases l with
    | nil => simp [evaluateRaw]
    | cons p ps =>
      rw [evaluateRaw]
      have h1 : (ps.drop (k + 1 - 1)).length ≤ n := by
        simp only [List.length_drop]
        simp only [List.length_cons] at hl
        omega
      rw [ih _ h1]
      simp only [Nat.add_sub_cancel, List.take_succ_cons, List.map_cons, List.cons_append]
      rw [← List.map_append, List.take_append_drop]

/-- The batch loop with a positive batch size settles each patch in
submission order. -/
theorem evaluateRaw_eq_map (evalF : PatchSubmission → EvalOutcome) (mp : Nat) (hmp : 0 < mp)
    (l : List PatchSubmission) :
    evaluateRaw evalF mp l = l.map (settleOutcome evalF) := by
  obtain ⟨k, rfl⟩ : ∃ k, mp = k + 1 := ⟨mp - 1, by omega⟩
  exact evaluateRaw_eq_map_aux evalF k l.length l (le_refl _)

/-- A guarded ratio of a numerator bounded by its denominator lies in the
unit interval. -/
theorem ratio_if_bounds (r t : Nat) (hrt : r ≤ t) :
    0 ≤ (if t > 0 then (r : ℚ) / t else 0) ∧ (if t > 0 then (r : ℚ) / t else 0) ≤ 1 := by
  split
  · constructor
    · positivity
    · rw [div_le_one (by exact_mod_cast ‹t > 0›)]
      exact_mod_cast hrt
  · simp

/-! Claim theorems. -/

/-- C1: the batch loop of evaluate yields exactly one raw result per
submitted patch, in submission order, and a rejected evaluation is
converted into a raw result with resolved false and the rejection reason
as error. -/
theorem evaluate_one_result_per_patch (evalF : PatchSubmission → EvalOutcome)
    (maxParallel : Nat) (patches : List PatchSubmission) (hmp : 0 < maxParallel) :
    (evaluateRaw evalF maxParallel patches).length = patches.length ∧
    ∀ (i : Nat) p r, patches[i]? = some p → evalF p = EvalOutcome.rejected r →
      (evaluateRaw evalF maxParallel patches)[i]? = some (mkRejectedResult p r) := by
  rw [evaluateRaw_eq_map evalF maxParallel hmp]
  constructor
  · exact List.length_map _ _
  · intro i p r hp hr
    rw [List.getElem?_map, hp]
    simp [settleOutcome, hr]

/-- Witness for C1: three patches, batch size two, every evaluation
rejected; three raw results come out, each the converted rejection. -/
theorem evaluate_one_result_per_patch_witness :
    0 < 2 ∧
    ((evaluateRaw (fun _ => EvalOutcome.rejected "boom".toList) 2
        [⟨"i1".toList, "p1".toList⟩, ⟨"i2".toList, "p2".toList⟩,
         ⟨"i3".toList, "p3".toList⟩]).length
      = [(⟨"i1".toList, "p1".toList⟩ : PatchSubmission), ⟨"i2".toList, "p2".toList⟩,
         ⟨"i3".toList, "p3".toList⟩].length ∧
    ∀ (i : Nat) p r,
      [(⟨"i1".toList, "p1".toList⟩ : PatchSubmission), ⟨"i2".toList, "p2".toList⟩,
       ⟨"i3".toList, "p3".toList⟩][i]? = some p →
      (fun (_ : PatchSubmission) => EvalOutcome.rejected "boom".toList) p
        = EvalOutcome.rejected r →
      (evaluateRaw (fun _ => EvalOutcome.rejected "boom".toList) 2
        [⟨"i1".toList, "p1".toList⟩, ⟨"i2".toList, "p2".toList⟩,
         ⟨"i3".toList, "p3".toList⟩])[i]? = some (mkRejectedResult p r)) :=
  ⟨by decide, evaluate_one_result_per_patch _ 2 _ (by decide)⟩

/-- C2: the three rates of formatResults always lie in the unit interval,
and each equals 0 on an empty batch of raw results. -/
theorem formatResults_rates_bounded :
    (∀ raw patches,
      0 ≤ (formatResults raw patches).resolution_rate ∧
        (formatResults raw patches).resolution_rate ≤ 1 ∧
      0 ≤ (formatResults raw patches).test_pass_rate ∧
        (formatResults raw patches).test_pass_rate ≤ 1 ∧
      0 ≤ (formatResults raw patches).compilation_success_rate ∧
        (formatResults raw patches).compilation_success_rate ≤ 1) ∧
    (formatResults [] []).resolution_rate = 0 ∧
    (formatResults [] []).test_pass_rate = 0 ∧
    (formatResults [] []).compilation_success_rate = 0 := by
  constructor
  · intro raw patches
    simp only [formatResults]
    obtain ⟨hr1, hr2⟩ := ratio_if_bounds _ _ (List.length_filter_le _ _)
    refine ⟨hr1, hr2, ?_, ?_, ?_, ?_⟩
    all_goals
      first
      | exact (ratio_if_bounds _ _ (List.length_filter_le _ _)).1
      | exact (ratio_if_bounds _ _ (List.length_filter_le _ _)).2
  · refine ⟨?_, ?_, ?_⟩ <;> simp [formatResults]

/-- C3: actual behaviour of parseTestOutput on the mocha-style output
claimed to parse as passed 8, failed 2, total 10.  The mocha pattern does
match, but the branch guards compare pattern sources against literal
texts that occur in no pattern source, so the generic else branch runs:
testsRun becomes the first capture 8, testsPassed the second capture 2,
and testsFailed parseInt of an absent third capture, NaN. -/
theorem parseTestOutput_mocha_input_actual :
    parseTestOutput "passing: 8, failing: 2".toList
      = { testsRun := some 8, testsPassed := some 2, testsFailed := none } := by
  decide

/-- C4 counterexample: RepositoryManager.applyPatch on the empty patch
writes the temporary file and spawns git apply; the claim that an empty
patch invokes no external process fails on this implementation. -/
theorem rmApplyPatch_empty_patch_spawns_process :
    (rmApplyPatch ⟨ExecResult.ok [] [], true⟩ []).2 ≠ [] ∧
    FsEvent.runCmd rmGitApplyCmd ∈ (rmApplyPatch ⟨ExecResult.ok [] [], true⟩ []).2 := by
  decide

/-- C4 amended: the applyPatch of RealEvaluationEngine returns true on a
blank patch with no external event at all. -/
theorem engineApplyPatch_blank_noop (env : ApplyEnv) (patch : Str)
    (h : isBlank patch = true) :
    engineApplyPatch env patch = (true, []) := by
  simp [engineApplyPatch, h]

/-- Witness for the amended C4 at a whitespace-only patch. -/
theorem engineApplyPatch_blank_noop_witness :
    isBlank "   ".toList = true ∧
    engineApplyPatch ⟨false, false⟩ "   ".toList = (true, []) :=
  ⟨by decide, engineApplyPatch_blank_noop ⟨false, false⟩ _ (by decide)⟩

/-- C5 counterexample: when git apply resolves with error output,
RepositoryManager.applyPatch returns false and never unlinks the
temporary patch file, refuting removal regardless of outcome. -/
theorem rmApplyPatch_failure_keeps_temp_file :
    (rmApplyPatch ⟨ExecResult.ok [] "error: patch failed".toList, true⟩
        "diff".toList).1 = false ∧
    FsEvent.unlink rmPatchFile
      ∉ (rmApplyPatch ⟨ExecResult.ok [] "error: patch failed".toList, true⟩
          "diff".toList).2 := by
  decide

/-- C5 amended: the applyPatch of RealEvaluationEngine attempts the
unlink of its temporary file on every non-blank run, whatever the two
process outcomes are. -/
theorem engineApplyPatch_always_unlinks (env : ApplyEnv) (patch : Str)
    (h : isBlank patch = false) :
    FsEvent.unlink enginePatchFile ∈ (engineApplyPatch env patch).2 := by
  obtain ⟨g, pc⟩ := env
  cases g <;> cases pc <;> simp [engineApplyPatch, h]

/-- Witness for the amended C5 with both processes failing. -/
theorem engineApplyPatch_always_unlinks_witness :
    isBlank "diff --git a b".toList = false ∧
    FsEvent.unlink enginePatchFile
      ∈ (engineApplyPatch ⟨false, false⟩ "diff --git a b".toList).2 :=
  ⟨by decide, engineApplyPatch_always_unlinks ⟨false, false⟩ _ (by decide)⟩

/-- C6 counterexample: on a rejected git apply,
RepositoryManager.applyPatch returns false at once; its whole trace is
the file write and the single git apply call, with no retry through the
patch command. -/
theorem rmApplyPatch_no_patch_cmd_retry :
    rmApplyPatch ⟨ExecResult.err, true⟩ "diff".toList
      = (false, [FsEvent.writeFile rmPatchFile, FsEvent.runCmd rmGitApplyCmd]) := by
  decide

/-- C6 amended: the applyPatch of RealEvaluationEngine retries a failed
git apply exactly once through the patch command, and returns false
exactly when that retry also fails. -/
theorem engineApplyPatch_retries_via_patch_cmd (env : ApplyEnv) (patch : Str)
    (h1 : isBlank patch = false) (h2 : env.gitApplyOk = false) :
    FsEvent.runCmd enginePatchCmd ∈ (engineApplyPatch env patch).2 ∧
    ((engineApplyPatch env patch).1 = false ↔ env.patchCmdOk = false) := by
  obtain ⟨g, pc⟩ := env
  simp only at h2
  subst h2
  cases pc <;> simp [engineApplyPatch, h1]

/-- Witness for the amended C6 with a successful patch-command retry. -/
theorem engineApplyPatch_retries_via_patch_cmd_witness :
    isBlank "diff x".toList = false ∧ (ApplyEnv.mk false true).gitApplyOk = false ∧
    (FsEvent.runCmd enginePatchCmd ∈ (engineApplyPatch ⟨false, true⟩ "diff x".toList).2 ∧
     ((engineApplyPatch ⟨false, true⟩ "diff x".toList).1 = false ↔
       (ApplyEnv.mk false true).patchCmdOk = false)) :=
  ⟨by decide, by decide,
    engineApplyPatch_retries_via_patch_cmd ⟨false, true⟩ _ (by decide) (by decide)⟩

/-- C7: runTests with no package.json, or with no test script entry,
returns the all-zero results with an empty command trace. -/
theorem runTestsRM_nothing_to_run (env : RunTestsEnv)
    (h : env.packageJson = PkgFileRead.missing ∨
      ∃ pkg, env.packageJson = PkgFileRead.found pkg ∧ pkg.scripts_test = none) :
    runTestsRM env = (zeroTestResults, []) := by
  rcases h with h | ⟨pkg, h, hs⟩
  · simp [runTestsRM, h]
  · simp [runTestsRM, h, hs]

/-- Witness for C7 at a missing package.json. -/
theorem runTestsRM_nothing_to_run_witness :
    ((RunTestsEnv.mk PkgFileRead.missing { pkgRead := none }
        (TestExecOut.ok [] []) none 0).packageJson = PkgFileRead.missing ∨
      ∃ pkg, (RunTestsEnv.mk PkgFileRead.missing { pkgRead := none }
          (TestExecOut.ok [] []) none 0).packageJson
            = PkgFileRead.found pkg ∧ pkg.scripts_test = none) ∧
    runTestsRM (RunTestsEnv.mk PkgFileRead.missing { pkgRead := none }
        (TestExecOut.ok [] []) none 0)
      = (zeroTestResults, []) :=
  ⟨Or.inl rfl, runTestsRM_nothing_to_run _ (Or.inl rfl)⟩

/-- C8: when no fallback pattern matches the combined output and the
combined output carries no error indicator, the fallback counts the run
as exactly one passing test. -/
theorem parseFallbackRM_optimistic_single_pass (stdout stderr : Str) (duration : Nat)
    (h1 : matchNumPassing (stdout ++ '\n' :: stderr) = none)
    (h2 : matchNumFailing (stdout ++ '\n' :: stderr) = none)
    (h3 : matchNumPass (stdout ++ '\n' :: stderr) = none)
    (h4 : matchNumFail (stdout ++ '\n' :: stderr) = none)
    (h5 : matchJestPassed (stdout ++ '\n' :: stderr) = none)
    (h6 : matchJestFailed (stdout ++ '\n' :: stderr) = none)
    (h7 : includesSub (stdout ++ '\n' :: stderr) "Error".toList = false)
    (h8 : includesSub (stdout ++ '\n' :: stderr) "failed".toList = false) :
    parseFallbackRM stdout stderr duration
      = { total := 1, passed := 1, failed := 0, skipped := 0,
          duration := duration, failures := [] } := by
  have he : includesSub stderr "Error".toList = false :=
    includesSub_suffix_false stdout '\n' stderr _ h7
  have hf : includesSub stderr "failed".toList = false :=
    includesSub_suffix_false stdout '\n' stderr _ h8
  simp [parseFallbackRM, h1, h2, h3, h4, h5, h6]
  simp at he hf
  simp [he, hf]

/-- Witness for C8 on a patternless, error-free output. -/
theorem parseFallbackRM_optimistic_single_pass_witness :
    matchNumPassing ("All good".toList ++ '\n' :: []) = none ∧
    includesSub ("All good".toList ++ '\n' :: []) "Error".toList = false ∧
    parseFallbackRM "All good".toList [] 0
      = { total := 1, passed := 1, failed := 0, skipped := 0,
          duration := 0, failures := [] } :=
  ⟨by decide, by decide,
    parseFallbackRM_optimistic_single_pass "All good".toList [] 0 (by decide) (by decide)
      (by decide) (by decide) (by decide) (by decide) (by decide) (by decide)⟩

/-- C9: classifyError is a pure function of its input, case-insensitive
(a lower-cased input classifies identically), equal to the
first-matching-bucket classification over the fixed ordered bucket list,
and the three sample texts all classify as Timeout. -/
theorem classifyError_spec :
    (∀ s, classifyError (lowerStr s) = classifyError s) ∧
    (∀ s, classifyError s = classifyByBuckets s) ∧
    classifyError "Timeout exceeded".toList = "Timeout".toList ∧
    classifyError "TIMEOUT".toList = "Timeout".toList ∧
    classifyError "operation timeout".toList = "Timeout".toList :=
  ⟨classifyError_ci, classifyError_eq_buckets, by decide, by decide, by decide⟩

/-- C10: formatResults copies the resolved flag into tests_passed for
every instance, so the test pass rate equals the resolution rate and the
exact-match count equals the resolved count. -/
theorem formatResults_rates_coupled (raw : List RawEvaluationResults)
    (patches : List PatchSubmission) :
    (formatResults raw patches).test_pass_rate = (formatResults raw patches).resolution_rate ∧
    (formatResults raw patches).exact_matches
      = (formatResults raw patches).resolved_instances := by
  constructor
  · simp only [formatResults, List.filter_map]
    rfl
  · rfl

end Autocoder
